import Mathlib

/-!
Verification of the multimodal-RAG repository's own logic, shallowly embedded
in Lean 4. The repository has three Python files:

* `config.py` — module-level configuration constants;
* `setup_pipeline.py` — the indexing run (`main`), the image summarizer
  (`summarize_image`) and the element-processing loop that turns partitioned
  PDF elements into `Document` records;
* `rag_query.py` — the query run, including the JSON-file conversational
  memory store (`load_memory` / `save_memory`).

External services (the PDF partitioner, the vision model, the Qdrant vector
store, the PIL image library) appear as oracles: functions supplied as
parameters whose results are `Except`-valued where the corresponding Python
call can raise. The repository's own control flow — branch structure,
exception handlers, list assembly, file overwrite — is translated directly.
-/

set_option autoImplicit false

namespace MultimodalRag

/-! ## Configuration (`config.py`) -/

/-- `config.PDF_PATH`. -/
def PDF_PATH : String := "data/jemh109.pdf"

/-- `config.COLLECTION_NAME`. -/
def COLLECTION_NAME : String := "jmeh_multimodal"

/-! ## Conversational memory (`rag_query.py`, lines 16–48)

The session store keeps one JSON file per session id, each holding an array
of objects with a `type` tag (`"human"` / `"ai"`) and a `content` string.
We model the filesystem under `SESSION_DIR` as a map from session id to the
parsed array (`none` = the file does not exist); `json.dump`/`json.load`
round-trip such arrays faithfully, so serialization is the identity here. -/

/-- One entry of a session file's JSON array: an object with keys
`"type"` and `"content"`. -/
structure SessionEntry where
  type : String
  content : String
  deriving DecidableEq, Repr

/-- A chat turn as it exists in the running process: `HumanMessage` or
`AIMessage` from `langchain_core.messages`, each carrying its content. -/
inductive ChatMsg where
  | human (content : String)
  | ai (content : String)
  deriving DecidableEq, Repr

/-- The session directory: session id ↦ parsed contents of
`chat_sessions/<id>.json`, or `none` when no such file exists. -/
def Store : Type := String → Option (List SessionEntry)

/-- The serialization loop inside `save_memory` (lines 41–46): each message
becomes a dict whose tag is `"human"` for a `HumanMessage` and `"ai"`
otherwise. -/
def save_turns (msgs : List ChatMsg) : List SessionEntry :=
  msgs.map fun m =>
    match m with
    | .human c => ⟨"human", c⟩
    | .ai c => ⟨"ai", c⟩

/-- The parsing loop inside `load_memory` (lines 30–36): entries tagged
`"human"` become `HumanMessage`, entries tagged `"ai"` become `AIMessage`,
and every other entry falls through both branches and is skipped. -/
def load_turns : List SessionEntry → List ChatMsg
  | [] => []
  | e :: rest =>
    (if e.type = "human" then [ChatMsg.human e.content]
     else if e.type = "ai" then [ChatMsg.ai e.content]
     else []) ++ load_turns rest

/-- `save_memory(session_id, history_messages)` (lines 38–48): opens the
session file in mode `'w'` and writes the serialized full history — a
complete overwrite of whatever was there. -/
def save_memory (session_id : String) (history_messages : List ChatMsg)
    (store : Store) : Store :=
  fun k => if k = session_id then some (save_turns history_messages) else store k

/-- `load_memory(session_id)` (lines 21–36): returns `[]` when the session
file does not exist, otherwise parses the stored array. -/
def load_memory (session_id : String) (store : Store) : List ChatMsg :=
  match store session_id with
  | none => []
  | some entries => load_turns entries

/-- The session-persistence slice of `rag_query.main` when `--session_id` is
given (lines 96–99 and 174–178): load the history, append one
`HumanMessage(question)` and one `AIMessage(answer)`, save. The answer
string is whatever the RAG chain produced; it is a parameter here. -/
def runQuery (session_id question answer : String) (store : Store) : Store :=
  save_memory session_id
    (load_memory session_id store ++ [ChatMsg.human question, ChatMsg.ai answer])
    store

/-! ## Image summarizer (`setup_pipeline.py`, lines 21–63)

`summarize_image` runs a try-block: decode the bytes with `Image.open`,
downscale with `thumbnail((1024, 1024))`, re-encode to base64 PNG
(`encode_image_to_base64`), build a `HumanMessage` with a fixed instruction
plus the data URL, and invoke the vision model. Any exception anywhere in
the block is caught and replaced by a fixed fallback string. PIL and the
model are external: each step is an oracle returning `Except` (error =
the Python call raised), over an abstract image type `Img`. -/

/-- The `HumanMessage` content built inside `summarize_image`
(lines 40–55): a fixed instruction and a base64 PNG data URL. -/
structure VisionMessage where
  text : String
  image_url : String
  deriving DecidableEq, Repr

/-- The instruction text of the vision prompt (lines 44–48). -/
def visionInstruction : String :=
  "Describe this image in detail. What mathematical concepts, " ++
  "diagrams, or formulas are visible? Be descriptive. This " ++
  "description will be used for a search index."

/-- Builds the vision `HumanMessage` from the base64-encoded image
(lines 40–55). -/
def mkVisionMessage (img_b64 : String) : VisionMessage :=
  { text := visionInstruction
    image_url := "data:image/png;base64," ++ img_b64 }

/-- Oracles for the external calls inside `summarize_image`, over an
abstract PIL image type `Img`. `Except.error` means the Python call
raised. `thumbnail` covers the in-place `pil_image.thumbnail((1024, 1024))`
(PIL decodes lazily, so decode errors can surface here); `encode_b64` is
`encode_image_to_base64` (PNG save + base64); `invoke` is
`llm_vision.invoke([msg])` returning `response.content`. -/
structure VisionEnv (Img : Type) where
  decode_image : List Nat → Except String Img
  thumbnail : Img → Except String Img
  encode_b64 : Img → Except String String
  invoke : VisionMessage → Except String String

/-- The body of the try-block in `summarize_image` (lines 34–60):
decode, downscale, encode, build the message, invoke the model. An
`Except.error` anywhere propagates (the Python exception). -/
def summarizeImageBody {Img : Type} (env : VisionEnv Img)
    (image_bytes : List Nat) : Except String String := do
  let pil_image ← env.decode_image image_bytes
  let pil_image ← env.thumbnail pil_image
  let img_b64 ← env.encode_b64 pil_image
  env.invoke (mkVisionMessage img_b64)

/-- The fallback string returned by the handler on line 63. -/
def summarizeFallback : String := "Failed to summarize image"

/-- `summarize_image(image_bytes, llm_vision)` (lines 28–63): the try-body's
result on success, the fixed fallback string when any step raised. Total —
the `except Exception` handler catches everything. -/
def summarize_image {Img : Type} (env : VisionEnv Img)
    (image_bytes : List Nat) : String :=
  match summarizeImageBody env image_bytes with
  | .ok content => content
  | .error _ => summarizeFallback

/-! ## Element processing (`setup_pipeline.py`, lines 113–154) -/

/-- Substring test on character lists: Python's `"Table" in element_type`.
`listStartsWith needle hay` checks that `needle` is an initial segment. -/
def listStartsWith : List Char → List Char → Bool
  | [], _ => true
  | _ :: _, [] => false
  | a :: as, b :: bs => a = b && listStartsWith as bs

/-- Whether `needle` occurs contiguously inside `hay`. -/
def listContainsSub (needle : List Char) : List Char → Bool
  | [] => needle.isEmpty
  | c :: rest => listStartsWith needle (c :: rest) || listContainsSub needle rest

/-- Python's `needle in hay` for strings. -/
def strContainsSub (hay needle : String) : Bool :=
  listContainsSub needle.data hay.data

/-- The `.metadata` of a partitioned element, with the two fields the code
reads: `page_number` and `text_as_html` (`none` models Python `None`). -/
structure ElementMetadata where
  page_number : Nat
  text_as_html : Option String
  deriving DecidableEq, Repr

/-- One element of the `partition_pdf` output. `elementType` is the class
name the loop extracts from `str(type(el))` (line 117), e.g. `"Image"`,
`"Table"`, `"Title"`, `"NarrativeText"`. `image_bytes` is `none` when the
attribute is absent (the `hasattr` check on line 120); unstructured
elements always carry a `text` attribute, so the `hasattr(el, 'text')`
guard on line 145 is always satisfied and `text` is a plain field. -/
structure Element where
  elementType : String
  text : String
  image_bytes : Option (List Nat)
  metadata : ElementMetadata
  deriving DecidableEq, Repr

/-- Python truthiness of the optional `image_bytes` attribute:
`hasattr(el, 'image_bytes') and el.image_bytes` (line 120). -/
def hasImageBytes (el : Element) : Bool :=
  match el.image_bytes with
  | none => false
  | some bs => !bs.isEmpty

/-- The ASCII whitespace characters `str.strip()` removes by default
(space, tab, newline, carriage return, vertical tab, form feed). -/
def isPyWhitespace (c : Char) : Bool :=
  c = ' ' || c = '\t' || c = '\n' || c = '\r' ||
    c = Char.ofNat 11 || c = Char.ofNat 12

/-- Python truthiness of `el.text.strip()` (line 145): true exactly when
the text contains some non-whitespace character, i.e. stripping leaves a
non-empty string. -/
def stripTruthy (s : String) : Bool :=
  s.data.any fun c => !isPyWhitespace c

/-- Python truthiness of `el.metadata.text_as_html` (line 133):
`None` and the empty string are falsy. -/
def truthyHtml (o : Option String) : Bool :=
  match o with
  | none => false
  | some s => !s.isEmpty

/-- The metadata dict of a langchain `Document` built by the loop. -/
structure DocMetadata where
  source : String
  page_number : Nat
  type : String
  deriving DecidableEq, Repr

/-- A langchain `Document`: the Record of the spec — a content string plus
metadata. -/
structure Document where
  page_content : String
  metadata : DocMetadata
  deriving DecidableEq, Repr

/-- Externally observable actions of an indexing run, in program order. -/
inductive Effect where
  /-- Constructing the `OllamaEmbeddings` / `ChatOllama` clients (lines 74–81). -/
  | modelInit
  /-- A chat-model invocation: the `llm_vision.invoke("test")` connection
  check (line 83) or a vision call inside `summarize_image` (line 58). -/
  | modelInvoke
  /-- The `partition_pdf` call (lines 100–105). -/
  | partitionCall
  /-- The `Qdrant.from_documents` upsert (lines 165–171). -/
  | vectorStoreUpsert
  deriving DecidableEq, Repr

/-- The model invocations performed by one `summarize_image` call: the
vision model is reached only if decode, downscale and encode all succeed
(otherwise the exception reaches the handler before line 58). -/
def summarizeEffects {Img : Type} (env : VisionEnv Img)
    (image_bytes : List Nat) : List Effect :=
  match (do
      let i ← env.decode_image image_bytes
      let i ← env.thumbnail i
      env.encode_b64 i : Except String String) with
  | .ok _ => [Effect.modelInvoke]
  | .error _ => []

/-- One iteration of the element loop (lines 116–154): the effects it
performs and the `Document` it appends, if any.

* `element_type == "Image"`: only with truthy `image_bytes` is a summary
  generated and a `Document` appended (type `"image_summary"`);
* `"Table" in element_type`: a `Document` of type `"table"` is always
  appended; content is the HTML-bearing f-string when `text_as_html` is
  truthy, else the plain `el.text`;
* otherwise: a `Document` is appended only when `el.text.strip()` is
  truthy, with the element's own type name. -/
def processElement {Img : Type} (env : VisionEnv Img) (el : Element) :
    List Effect × Option Document :=
  if el.elementType = "Image" then
    if hasImageBytes el then
      let bs := el.image_bytes.getD []
      (summarizeEffects env bs,
       some { page_content := summarize_image env bs
              metadata := { source := PDF_PATH
                            page_number := el.metadata.page_number
                            type := "image_summary" } })
    else ([], none)
  else if strContainsSub el.elementType "Table" then
    let content :=
      if truthyHtml el.metadata.text_as_html then
        "Table on page " ++ toString el.metadata.page_number ++ ":\n" ++
          (el.metadata.text_as_html.getD "")
      else el.text
    ([], some { page_content := content
                metadata := { source := PDF_PATH
                              page_number := el.metadata.page_number
                              type := "table" } })
  else if stripTruthy el.text then
    ([], some { page_content := el.text
                metadata := { source := PDF_PATH
                              page_number := el.metadata.page_number
                              type := el.elementType } })
  else ([], none)

/-- The whole element loop: effects in order and the `documents` list the
loop builds by appending. -/
def processElements {Img : Type} (env : VisionEnv Img) :
    List Element → List Effect × List Document
  | [] => ([], [])
  | el :: rest =>
    let step := processElement env el
    let tail := processElements env rest
    (step.1 ++ tail.1, step.2.toList ++ tail.2)

/-- Oracles for one whole indexing run (`setup_pipeline.main`).
`pdfExists` is `Path(config.PDF_PATH).exists()`; `constructorsOk` covers
the two client constructors (lines 74–81); `testInvokeOk` the
`llm_vision.invoke("test")` connection check (line 83); `partitionResult`
the `partition_pdf` call (error = it raised); `vision` the oracles used by
`summarize_image`. -/
structure IndexEnv (Img : Type) where
  pdfExists : Bool
  constructorsOk : Bool
  testInvokeOk : Bool
  partitionResult : Except String (List Element)
  vision : VisionEnv Img

/-- `setup_pipeline.main` (lines 65–179) as a trace of effects plus the
final documents list (`none` = the run aborted by an early `return`, or —
for the empty-documents case — returned before the vector-store call).

Order of events: the existence check (line 68) precedes everything;
client construction precedes the test invocation; a failure in either
aborts inside the first try-block (lines 73–91); then partitioning
(aborting on error), the element loop, the `if not documents` guard
(lines 156–158), and finally `Qdrant.from_documents`. -/
def mainRun {Img : Type} (env : IndexEnv Img) : List Effect × Option (List Document) :=
  if !env.pdfExists then ([], none)
  else
    let initEffects :=
      [Effect.modelInit] ++ (if env.constructorsOk then [Effect.modelInvoke] else [])
    if !(env.constructorsOk && env.testInvokeOk) then (initEffects, none)
    else
      match env.partitionResult with
      | .error _ => (initEffects ++ [Effect.partitionCall], none)
      | .ok elements =>
        let loop := processElements env.vision elements
        let pre := initEffects ++ [Effect.partitionCall] ++ loop.1
        if loop.2.isEmpty then (pre, none)
        else (pre ++ [Effect.vectorStoreUpsert], some loop.2)

/-! ## Concrete fixtures used to instantiate the theorems -/

/-- A vision environment whose model invocation always raises (e.g. the
model server is down); decoding and encoding succeed. -/
def unitVisionFail : VisionEnv Unit where
  decode_image := fun _ => .ok ()
  thumbnail := fun i => .ok i
  encode_b64 := fun _ => .ok "QQ=="
  invoke := fun _ => .error "connection refused"

/-- A `Table` element carrying neither text nor an HTML rendering. -/
def blankTable : Element where
  elementType := "Table"
  text := ""
  image_bytes := none
  metadata := { page_number := 3, text_as_html := none }

/-- A `Table` element carrying an HTML rendering. -/
def htmlTable : Element where
  elementType := "Table"
  text := "1 2"
  image_bytes := none
  metadata := { page_number := 2, text_as_html := some "<table><tr><td>1</td></tr></table>" }

/-- An `Image` element with image bytes present. -/
def sampleImageEl : Element where
  elementType := "Image"
  text := ""
  image_bytes := some [137, 80]
  metadata := { page_number := 5, text_as_html := none }

/-- A `Title` element with empty text: the silently-dropped shape. -/
def blankTitle : Element where
  elementType := "Title"
  text := ""
  image_bytes := none
  metadata := { page_number := 1, text_as_html := none }

/-- An indexing environment where everything up to partitioning succeeds
but the PDF yields no elements at all. -/
def envNoDocs : IndexEnv Unit where
  pdfExists := true
  constructorsOk := true
  testInvokeOk := true
  partitionResult := .ok []
  vision := unitVisionFail

/-- An indexing environment whose configured PDF path does not exist. -/
def envNoPdf : IndexEnv Unit where
  pdfExists := false
  constructorsOk := true
  testInvokeOk := true
  partitionResult := .ok []
  vision := unitVisionFail

/-- A stored session array containing an entry with an unrecognized tag. -/
def mixedEntries : List SessionEntry :=
  [⟨"human", "hi"⟩, ⟨"system", "noise"⟩, ⟨"ai", "hello"⟩]

/-- A session directory holding `mixedEntries` under id `"s1"`. -/
def storeMixed : Store :=
  fun k => if k = "s1" then some mixedEntries else none

/-! ### Lemmas about the memory store -/

theorem load_turns_save_turns (msgs : List ChatMsg) :
    load_turns (save_turns msgs) = msgs := by
  induction msgs with
  | nil => rfl
  | cons m rest ih =>
    cases m <;> simp [save_turns, load_turns] <;>
      simpa [save_turns] using ih

theorem load_turns_filterMap (entries : List SessionEntry) :
    load_turns entries = entries.filterMap fun e =>
      if e.type = "human" then some (ChatMsg.human e.content)
      else if e.type = "ai" then some (ChatMsg.ai e.content)
      else none := by
  induction entries with
  | nil => rfl
  | cons e rest ih =>
    by_cases h1 : e.type = "human"
    · simp [load_turns, List.filterMap_cons, h1, ih]
    · by_cases h2 : e.type = "ai" <;>
        simp [load_turns, List.filterMap_cons, h1, h2, ih]

/-! ### Lemmas about the indexing trace -/

theorem upsert_notin_summarizeEffects {Img : Type} (env : VisionEnv Img)
    (bs : List Nat) : Effect.vectorStoreUpsert ∉ summarizeEffects env bs := by
  unfold summarizeEffects
  split <;> simp

theorem upsert_notin_processElement {Img : Type} (env : VisionEnv Img)
    (el : Element) : Effect.vectorStoreUpsert ∉ (processElement env el).1 := by
  unfold processElement
  split_ifs <;> simp [upsert_notin_summarizeEffects]

theorem upsert_notin_processElements {Img : Type} (env : VisionEnv Img)
    (els : List Element) : Effect.vectorStoreUpsert ∉ (processElements env els).1 := by
  induction els with
  | nil => simp [processElements]
  | cons el rest ih =>
    simp only [processElements, List.mem_append]
    rintro (h | h)
    · exact upsert_notin_processElement env el h
    · exact ih h

theorem string_isEmpty_false_of_ne (s : String) (h : s ≠ "") :
    s.isEmpty = false := by
  cases he : s.isEmpty
  · rfl
  · exact absurd ((String.isEmpty_iff s).mp he) h

/-! ## Claims -/

/-- C4: for every session id and every turn sequence of human and assistant
messages, `save_memory(id, turns)` followed by `load_memory(id)` returns a
sequence equal to `turns` in order, role tags, and message content. -/
theorem c4_save_load_roundtrip (session_id : String) (turns : List ChatMsg)
    (store : Store) :
    load_memory session_id (save_memory session_id turns store) = turns := by
  simp [load_memory, save_memory, load_turns_save_turns]

/-- C5: for every session id whose session file does not exist,
`load_memory(id)` returns the empty sequence (and, being a total Lean
function, never raises). -/
theorem c5_load_missing_empty (session_id : String) (store : Store)
    (h : store session_id = none) :
    load_memory session_id store = [] := by
  simp [load_memory, h]

theorem c5_load_missing_empty_witness :
    ((fun _ => none : Store) "s9" = none) ∧
      load_memory "s9" (fun _ => none : Store) = [] :=
  ⟨rfl, c5_load_missing_empty "s9" (fun _ => none) rfl⟩

/-- C10: for every session file whose stored array contains entries with a
type tag other than `"human"` or `"ai"`, `load_memory` silently skips those
entries, returning only the recognized turns in their original relative
order — its result is exactly the order-preserving `filterMap` that keeps
the recognized tags. -/
theorem c10_skip_unrecognized (session_id : String) (store : Store)
    (entries : List SessionEntry) (h : store session_id = some entries) :
    load_memory session_id store = entries.filterMap fun e =>
      if e.type = "human" then some (ChatMsg.human e.content)
      else if e.type = "ai" then some (ChatMsg.ai e.content)
      else none := by
  simp [load_memory, h, load_turns_filterMap]

theorem c10_skip_unrecognized_witness :
    (storeMixed "s1" = some mixedEntries) ∧
      load_memory "s1" storeMixed = [ChatMsg.human "hi", ChatMsg.ai "hello"] :=
  ⟨rfl, (c10_skip_unrecognized "s1" storeMixed mixedEntries rfl).trans (by decide)⟩

/-- C6: for every query run given a session id, the session file is
rewritten by full overwrite so that it holds exactly the previously loaded
history followed by one human turn with the question and one assistant turn
with the answer; hence two consecutive runs on a fresh session id leave a
file of four turns (two human, two ai) in chronological order. -/
theorem c6_session_file_contents (session_id q1 a1 q2 a2 : String)
    (store : Store) :
    ((runQuery session_id q1 a1 store) session_id =
      some (save_turns
        (load_memory session_id store ++ [ChatMsg.human q1, ChatMsg.ai a1]))) ∧
    (store session_id = none →
      (runQuery session_id q2 a2 (runQuery session_id q1 a1 store)) session_id =
        some [⟨"human", q1⟩, ⟨"ai", a1⟩, ⟨"human", q2⟩, ⟨"ai", a2⟩]) := by
  constructor
  · simp [runQuery, save_memory]
  · intro h
    simp [runQuery, save_memory, load_memory, h, load_turns, save_turns]

theorem c6_session_file_contents_witness :
    ((fun _ => none : Store) "test1" = none) ∧
      (runQuery "test1" "q2" "a2" (runQuery "test1" "q1" "a1"
          (fun _ => none : Store))) "test1" =
        some [⟨"human", "q1"⟩, ⟨"ai", "a1"⟩, ⟨"human", "q2"⟩, ⟨"ai", "a2"⟩] :=
  ⟨rfl,
    (c6_session_file_contents "test1" "q1" "a1" "q2" "a2" (fun _ => none)).2 rfl⟩

/-- C3: for every input byte string and every behaviour of the vision
oracles (decode, downscale, encode or invoke raising included),
`summarize_image` is total — never raises — and returns the model's
description when the try-body succeeds and the fixed fallback string on any
failure. -/
theorem c3_summarize_never_raises {Img : Type} (env : VisionEnv Img)
    (image_bytes : List Nat) :
    (∃ d, summarizeImageBody env image_bytes = .ok d ∧
        summarize_image env image_bytes = d) ∨
    (∃ e, summarizeImageBody env image_bytes = .error e ∧
        summarize_image env image_bytes = summarizeFallback) := by
  cases h : summarizeImageBody env image_bytes with
  | ok d => exact .inl ⟨d, rfl, by simp [summarize_image, h]⟩
  | error e => exact .inr ⟨e, rfl, by simp [summarize_image, h]⟩

/-- C1 (counterexample): a `Table` element with blank text and no image
bytes is not dropped — the loop appends a `Document` for it, and that
`Document` has empty content. This refutes both halves of the claim as
stated. -/
theorem c1_counterexample :
    stripTruthy blankTable.text = false ∧ blankTable.image_bytes = none ∧
      (processElement unitVisionFail blankTable).2 =
        some { page_content := ""
               metadata := { source := PDF_PATH, page_number := 3, type := "table" } } :=
  ⟨rfl, rfl, by decide⟩

/-- C1 (amended): for every element whose kind is not `"Image"` and whose
kind name does not contain `"Table"`, blank text means the loop produces no
`Document`, and any `Document` the loop does produce for such an element
has non-blank content. (Table elements are exempt: they always get a
`Document`, even with blank text and no HTML rendering, so the global
non-empty-content invariant fails for them.) -/
theorem c1_drop_invariant_amended {Img : Type} (env : VisionEnv Img)
    (el : Element) (himg : el.elementType ≠ "Image")
    (htbl : strContainsSub el.elementType "Table" = false) :
    (stripTruthy el.text = false → (processElement env el).2 = none) ∧
    (∀ d, (processElement env el).2 = some d →
      stripTruthy d.page_content = true) := by
  constructor
  · intro hblank
    simp [processElement, himg, htbl, hblank]
  · intro d hd
    have hval : (processElement env el).2 =
        if stripTruthy el.text then
          some { page_content := el.text
                 metadata := { source := PDF_PATH
                               page_number := el.metadata.page_number
                               type := el.elementType } }
        else none := by
      simp only [processElement, if_neg himg, htbl, Bool.false_eq_true,
        if_false]
      split <;> rfl
    rw [hval] at hd
    by_cases hb : stripTruthy el.text = true
    · rw [if_pos hb] at hd
      obtain rfl : _ = d := Option.some.inj hd
      exact hb
    · rw [if_neg hb] at hd
      exact absurd hd (by simp)

theorem c1_drop_invariant_amended_witness :
    blankTitle.elementType ≠ "Image" ∧
      strContainsSub blankTitle.elementType "Table" = false ∧
      stripTruthy blankTitle.text = false ∧
      (processElement unitVisionFail blankTitle).2 = none :=
  ⟨by decide, by decide, rfl,
    (c1_drop_invariant_amended unitVisionFail blankTitle (by decide) (by decide)).1 rfl⟩

/-- C2 (counterexample): an `Image` element whose summarization fails (the
vision invocation raises) is not dropped — a `Document` for it is appended,
carrying the fallback string as content. This refutes the claim that no
Record corresponding to that image is added. -/
theorem c2_counterexample :
    summarizeImageBody unitVisionFail [137, 80] = .error "connection refused" ∧
      (processElements unitVisionFail [sampleImageEl]).2 ≠ [] ∧
      (processElements unitVisionFail [sampleImageEl]).2 =
        [{ page_content := summarizeFallback
           metadata := { source := PDF_PATH, page_number := 5, type := "image_summary" } }] :=
  ⟨rfl, by decide, by decide⟩

/-- C2 (amended): for every image element whose summarization fails, the
run continues — the element is not dropped but given a `Document` whose
content is the fixed fallback string `"Failed to summarize image"`, and the
remaining elements are processed as usual. -/
theorem c2_fallback_document {Img : Type} (env : VisionEnv Img)
    (el : Element) (rest : List Element) (bs : List Nat) (e : String)
    (htype : el.elementType = "Image") (hbytes : el.image_bytes = some bs)
    (hne : bs ≠ []) (hfail : summarizeImageBody env bs = .error e) :
    (processElements env (el :: rest)).2 =
      { page_content := summarizeFallback
        metadata := { source := PDF_PATH
                      page_number := el.metadata.page_number
                      type := "image_summary" } }
        :: (processElements env rest).2 := by
  have himg : hasImageBytes el = true := by
    rw [hasImageBytes, hbytes]
    cases bs with
    | nil => exact absurd rfl hne
    | cons b t => rfl
  have hgd : el.image_bytes.getD [] = bs := by rw [hbytes]; rfl
  simp [processElements, processElement, htype, himg, hgd, summarize_image,
    hfail]

theorem c2_fallback_document_witness :
    sampleImageEl.elementType = "Image" ∧
      sampleImageEl.image_bytes = some [137, 80] ∧
      summarizeImageBody unitVisionFail [137, 80] = .error "connection refused" ∧
      (processElements unitVisionFail [sampleImageEl]).2 =
        [{ page_content := summarizeFallback
           metadata := { source := PDF_PATH, page_number := 5, type := "image_summary" } }] :=
  ⟨rfl, rfl, rfl,
    c2_fallback_document unitVisionFail sampleImageEl [] [137, 80]
      "connection refused" rfl rfl (by decide) rfl⟩

/-- C9: for every table element (kind name containing `"Table"`), if an
HTML rendering is present in metadata the `Document` content contains that
HTML string (it equals the fixed f-string ending in the HTML) rather than
the element's plain text; the plain text is used exactly when no truthy
HTML rendering is present. -/
theorem c9_table_prefers_html {Img : Type} (env : VisionEnv Img)
    (el : Element) (htbl : strContainsSub el.elementType "Table" = true) :
    (∀ html, el.metadata.text_as_html = some html → html ≠ "" →
      ∃ d, (processElement env el).2 = some d ∧
        d.page_content =
          "Table on page " ++ toString el.metadata.page_number ++ ":\n" ++ html ∧
        (∃ p, d.page_content = p ++ html) ∧ d.metadata.type = "table") ∧
    (truthyHtml el.metadata.text_as_html = false →
      ∃ d, (processElement env el).2 = some d ∧ d.page_content = el.text) := by
  have himg : el.elementType ≠ "Image" := by
    intro he
    rw [he] at htbl
    exact absurd htbl (by decide)
  constructor
  · intro html hhtml hne
    have htruthy : truthyHtml (some html) = true := by
      simp [truthyHtml, string_isEmpty_false_of_ne html hne]
    have hproc : (processElement env el).2 = some
        { page_content :=
            "Table on page " ++ toString el.metadata.page_number ++ ":\n" ++ html
          metadata := { source := PDF_PATH
                        page_number := el.metadata.page_number
                        type := "table" } } := by
      simp [processElement, himg, htbl, hhtml, htruthy]
    exact ⟨_, hproc, rfl, ⟨_, rfl⟩, rfl⟩
  · intro hfalse
    have hproc : (processElement env el).2 = some
        { page_content := el.text
          metadata := { source := PDF_PATH
                        page_number := el.metadata.page_number
                        type := "table" } } := by
      simp [processElement, himg, htbl, hfalse]
    exact ⟨_, hproc, rfl⟩

theorem c9_table_prefers_html_witness :
    strContainsSub htmlTable.elementType "Table" = true ∧
      htmlTable.metadata.text_as_html = some "<table><tr><td>1</td></tr></table>" ∧
      ∃ d, (processElement unitVisionFail htmlTable).2 = some d ∧
        d.page_content =
          "Table on page " ++ toString htmlTable.metadata.page_number ++ ":\n" ++
            "<table><tr><td>1</td></tr></table>" ∧
        (∃ p, d.page_content = p ++ "<table><tr><td>1</td></tr></table>") ∧
        d.metadata.type = "table" :=
  ⟨by decide, rfl,
    (c9_table_prefers_html unitVisionFail htmlTable (by decide)).1
      "<table><tr><td>1</td></tr></table>" rfl (by decide)⟩

/-- C7: for every indexing run whose element-processing loop produces zero
`Document`s, the run aborts without issuing any vector-store operation —
`Qdrant.from_documents` never appears in the trace and no documents list is
handed to the store, leaving the collection unchanged. -/
theorem c7_no_records_no_upsert {Img : Type} (env : IndexEnv Img)
    (elements : List Element) (hpart : env.partitionResult = .ok elements)
    (hempty : (processElements env.vision elements).2 = []) :
    Effect.vectorStoreUpsert ∉ (mainRun env).1 ∧ (mainRun env).2 = none := by
  unfold mainRun
  rw [hpart]
  by_cases h1 : env.pdfExists
  · by_cases h2 : env.constructorsOk
    · by_cases h3 : env.testInvokeOk
      · have hloop := upsert_notin_processElements env.vision elements
        simp [h1, h2, h3, hempty]
        simpa using hloop
      · simp [h1, h2, h3]
    · simp [h1, h2]
  · simp [h1]

theorem c7_no_records_no_upsert_witness :
    (envNoDocs.partitionResult = .ok []) ∧
      ((processElements envNoDocs.vision []).2 = []) ∧
      Effect.vectorStoreUpsert ∉ (mainRun envNoDocs).1 ∧
      (mainRun envNoDocs).2 = none :=
  ⟨rfl, rfl, c7_no_records_no_upsert envNoDocs [] rfl rfl⟩

/-- C8: for every indexing run where the configured PDF path does not
exist, the run aborts at the existence check with an empty trace — in
particular before any model construction, any model invocation, or any
vector-store call. -/
theorem c8_missing_pdf_aborts_first {Img : Type} (env : IndexEnv Img)
    (h : env.pdfExists = false) :
    (mainRun env).1 = [] ∧ Effect.modelInit ∉ (mainRun env).1 ∧
      Effect.modelInvoke ∉ (mainRun env).1 ∧
      Effect.vectorStoreUpsert ∉ (mainRun env).1 ∧
      (mainRun env).2 = none := by
  simp [mainRun, h]

theorem c8_missing_pdf_aborts_first_witness :
    (envNoPdf.pdfExists = false) ∧ (mainRun envNoPdf).1 = [] ∧
      Effect.modelInit ∉ (mainRun envNoPdf).1 ∧
      Effect.modelInvoke ∉ (mainRun envNoPdf).1 ∧
      Effect.vectorStoreUpsert ∉ (mainRun envNoPdf).1 ∧
      (mainRun envNoPdf).2 = none :=
  ⟨rfl, c8_missing_pdf_aborts_first envNoPdf rfl⟩

end MultimodalRag
